import Mathlib

/-!
Verification development for the bigquery-api authorization gateway.
Shallow embedding of src/app/auth.py, src/app/exceptions.py and the
relevant parts of src/app/config.py.

Conventions of the embedding:
- Python `None` for an optional string field is `Option.none`; a missing
  token email is modelled as the empty string (the code only tests the
  email for truthiness before use).
- Python truthiness of an optional string (`if not x`) is `pyTruthy`.
- Python `xs or d` on lists (falsy when empty or None) is `pyListOr`.
- The firestore client is a pair of pure lookup functions; a lookup can
  be found, absent, or fail with an infrastructure error (a generic
  exception in the Python code).
- The module-level TTLCache of auth.py line 55 is an association list
  of entries carrying their expiry instant; an entry is live at `now`
  exactly when `now < expires` (the cachetools convention), with
  `expires = insertion time + ttl`, ttl hardcoded to 300.
- Time is a natural number of seconds passed explicitly.
-/

/-- Configuration fields of src/app/config.py used by the auth layer. -/
structure Settings where
  gcp_project_id : String
  accessible_projects : List String
  super_admin_domains : List String
  cache_ttl : Nat
  deriving DecidableEq

/-- Validator parse_super_admin_domains of config.py lines 99-104:
split an environment string on commas, strip, drop empty entries. -/
def parse_super_admin_domains (v : String) : List String :=
  ((v.splitOn ",").map String.trim).filter (fun d => !(d == ""))

/-- Python s.startswith(p), on the character lists of the strings. -/
def strStartsWith (s p : String) : Bool :=
  p.data.isPrefixOf s.data

/-- Python s[n:], on the character list of the string. -/
def strDrop (s : String) (n : Nat) : String :=
  ⟨s.data.drop n⟩

/-- Python `c in s` for a single character c. -/
def strContainsChar (s : String) (c : Char) : Bool :=
  s.data.contains c

/-- Python s.split(sep)[-1] for a single-character separator: the
suffix of s after the last occurrence of sep (s itself when sep does
not occur). -/
def afterLastSep (s : String) (sep : Char) : String :=
  ⟨(s.data.reverse.takeWhile (fun c => !(c == sep))).reverse⟩

/-- Error taxonomy of src/app/exceptions.py restricted to the auth layer.
The constructors carry the detail string where the code builds one. -/
inductive AuthErr where
  | authenticationError (detail : String)
  | authorizationError (detail : String)
  | invalidToken
  | missingToken
  | userNotFound
  | companyNotFound
  | projectAccessDenied (project_id : String)
  deriving DecidableEq

/-- HTTP status of each error class, from the constructor chains in
exceptions.py (UserNotFoundError is an AuthenticationError, 401;
CompanyNotFoundError and ProjectAccessDeniedError are
AuthorizationError, 403). -/
def AuthErr.status_code : AuthErr → Nat
  | .authenticationError _ => 401
  | .authorizationError _ => 403
  | .invalidToken => 401
  | .missingToken => 401
  | .userNotFound => 401
  | .companyNotFound => 403
  | .projectAccessDenied _ => 403

/-- Machine-readable code of each error, from exceptions.py. -/
def AuthErr.error_code : AuthErr → String
  | .authenticationError _ => "AUTH_ERROR"
  | .authorizationError _ => "AUTHORIZATION_ERROR"
  | .invalidToken => "INVALID_TOKEN"
  | .missingToken => "MISSING_TOKEN"
  | .userNotFound => "USER_NOT_FOUND"
  | .companyNotFound => "COMPANY_NOT_FOUND"
  | .projectAccessDenied _ => "PROJECT_ACCESS_DENIED"

/-- The client_metadata dict attached in get_user_info (auth.py 195-199). -/
structure ClientMetadata where
  status : Option String
  created_at : Option String
  bigquery_dataset_id : Option String
  deriving DecidableEq

/-- UserInfo of auth.py lines 61-108, after the constructor defaults
have been applied. -/
structure UserInfo where
  uid : String
  email : String
  email_verified : Bool
  company_id : String
  gcp_project_id : String
  company_name : String
  is_super_admin : Bool
  accessible_projects : List String
  permissions : List String
  client_metadata : ClientMetadata
  deriving DecidableEq

/-- can_access_project of auth.py lines 88-90. -/
def UserInfo.can_access_project (u : UserInfo) (project_id : String) : Bool :=
  u.is_super_admin || u.accessible_projects.contains project_id

/-- has_permission of auth.py lines 92-94. -/
def UserInfo.has_permission (u : UserInfo) (permission : String) : Bool :=
  u.is_super_admin || u.permissions.contains permission

/-- Python truthiness of an optional string: None and the empty string
are falsy. -/
def pyTruthy (v : Option String) : Bool :=
  match v with
  | none => false
  | some x => !(x == "")

/-- Python `xs or d` for lists: the empty list falls through to the
default (the UserInfo constructor defaults of auth.py lines 84-85). -/
def pyListOr (v d : List String) : List String :=
  match v with
  | [] => d
  | _ => v

/-- A firestore users-collection document, fields read by auth.py. -/
structure UserDoc where
  company_id : Option String
  email_verified : Option Bool
  permissions : Option (List String)
  deriving DecidableEq

/-- A firestore clients-collection document, fields read by auth.py.
companyName stands for onboardingData.companyName. -/
structure ClientDoc where
  gcpProjectId : Option String
  companyName : Option String
  status : Option String
  createdAt : Option String
  bigQueryDatasetId : Option String
  deriving DecidableEq

/-- Outcome of one firestore point lookup: document found, document
absent, or an unexpected infrastructure failure (a raised exception). -/
inductive Lookup (α : Type) where
  | found (doc : α)
  | absent
  | infraError (msg : String)

/-- The firestore client of auth.py line 58, as two keyed lookups. -/
structure Firestore where
  users : String → Lookup UserDoc
  clients : String → Lookup ClientDoc

/-- Hardcoded ttl of the module-level cache, auth.py line 55. -/
def user_cache_ttl : Nat := 300

/-- Hardcoded maxsize of the module-level cache, auth.py line 55. -/
def user_cache_maxsize : Nat := 1000

/-- One cache slot: the stored identity and its expiry instant. -/
structure CacheEntry where
  value : UserInfo
  expires : Nat
  deriving DecidableEq

/-- The TTLCache content as an association list keyed by cache key. -/
abbrev UserCache := List (String × CacheEntry)

/-- TTLCache read: the stored value when the key is present and not
yet expired (`now < expires`), otherwise nothing. -/
def cacheLookup (c : UserCache) (k : String) (now : Nat) : Option UserInfo :=
  match c.find? (fun p => p.1 == k) with
  | some p => if now < p.2.expires then some p.2.value else none
  | none => none

/-- TTLCache write: store the value under the key with expiry
`now + user_cache_ttl`, replacing any previous entry for the key. -/
def cacheInsert (c : UserCache) (k : String) (v : UserInfo) (now : Nat) : UserCache :=
  (k, ⟨v, now + user_cache_ttl⟩) :: c.filter (fun p => !(p.1 == k))

/-- Super-admin test of auth.py lines 143-146: a nonempty email whose
substring after the last at-sign (empty when the email has no at-sign)
is listed in settings.super_admin_domains. -/
def super_admin_check (s : Settings) (email : String) : Bool :=
  if email == "" then false
  else
    s.super_admin_domains.contains
      (if strContainsChar email '@' then afterLastSep email '@' else "")

/-- The identity built on the super-admin branch, auth.py lines 149-159:
sentinel company "super-admin", configured admin projects falling back
to the default project, full permissions, email_verified forced true. -/
def super_admin_user_info (s : Settings) (uid email : String) : UserInfo :=
  ⟨uid, email, true, "super-admin", s.gcp_project_id, "Be-Luma Admin", true,
   pyListOr s.accessible_projects [s.gcp_project_id],
   ["read", "write", "admin"], ⟨none, none, none⟩⟩

/-- The identity built on the tenant-directory branch, auth.py
lines 185-200, from the user and client documents. -/
def tenant_user_info (uid email company_id gcp_project : String)
    (user_data : UserDoc) (client_data : ClientDoc) : UserInfo :=
  ⟨uid, email, user_data.email_verified.getD false, company_id, gcp_project,
   client_data.companyName.getD "Unknown Company", false, [gcp_project],
   pyListOr (user_data.permissions.getD ["read"]) ["read"],
   ⟨client_data.status, client_data.createdAt, client_data.bigQueryDatasetId⟩⟩

/-- The try-block body of get_user_info (auth.py lines 141-210) without
the cache: resolve an identity for uid and email against the firestore
client. Returns the result together with the number of tenant-directory
resolutions performed (0 on the super-admin branch, 1 otherwise). An
infrastructure failure of either lookup is caught by the generic except
clause and re-raised as a plain AuthenticationError. -/
def resolve_user_info (s : Settings) (fs : Firestore) (uid email : String) :
    Except AuthErr UserInfo × Nat :=
  if super_admin_check s email then
    (.ok (super_admin_user_info s uid email), 0)
  else
    match fs.users uid with
    | .infraError msg =>
        (.error (.authenticationError ("Failed to get user information: " ++ msg)), 1)
    | .absent => (.error .userNotFound, 1)
    | .found user_data =>
      if pyTruthy user_data.company_id then
        match fs.clients (user_data.company_id.getD "") with
        | .infraError msg =>
            (.error (.authenticationError ("Failed to get user information: " ++ msg)), 1)
        | .absent => (.error .companyNotFound, 1)
        | .found client_data =>
          if pyTruthy client_data.gcpProjectId then
            (.ok (tenant_user_info uid email (user_data.company_id.getD "")
                    (client_data.gcpProjectId.getD "") user_data client_data), 1)
          else
            (.error (.authorizationError "Company does not have an associated GCP project"), 1)
      else
        (.error (.authorizationError "User not associated with any company"), 1)

deriving instance DecidableEq for Except

/-- Result of get_user_info: the value or error, the cache afterwards,
and how many tenant-directory resolutions ran. -/
structure ResolveOut where
  result : Except AuthErr UserInfo
  cache : UserCache
  dirCalls : Nat
  deriving DecidableEq

/-- get_user_info of auth.py lines 133-210: cache read under key
"user_" ++ uid, on a miss resolve and cache only a successful result
(failed resolutions are never cached). -/
def get_user_info (s : Settings) (fs : Firestore) (cache : UserCache)
    (now : Nat) (uid email : String) : ResolveOut :=
  match cacheLookup cache ("user_" ++ uid) now with
  | some u => ⟨.ok u, cache, 0⟩
  | none =>
    match resolve_user_info s fs uid email with
    | (.ok u, n) => ⟨.ok u, cacheInsert cache ("user_" ++ uid) u now, n⟩
    | (.error e, n) => ⟨.error e, cache, n⟩

/-- Verified token claims built by validate_firebase_token, auth.py
lines 115-121. A missing email claim is modelled as the empty string;
exp and iat may be absent. -/
structure TokenClaims where
  uid : String
  email : String
  email_verified : Bool
  exp : Option Nat
  iat : Option Nat
  deriving DecidableEq

/-- Behaviour of the external firebase verifier on one token. -/
inductive VerifyOutcome where
  | valid (uid email : String) (email_verified : Bool) (exp iat : Option Nat)
  | invalidToken
  | expiredToken
  | revokedToken
  | infraError (msg : String)
  deriving DecidableEq

/-- validate_firebase_token of auth.py lines 111-130: the three firebase
rejection classes all map to InvalidTokenError; an unexpected failure is
re-raised as a plain AuthenticationError. -/
def validate_firebase_token (outcome : VerifyOutcome) : Except AuthErr TokenClaims :=
  match outcome with
  | .valid uid email ev exp iat => .ok ⟨uid, email, ev, exp, iat⟩
  | .invalidToken => .error .invalidToken
  | .expiredToken => .error .invalidToken
  | .revokedToken => .error .invalidToken
  | .infraError msg =>
      .error (.authenticationError ("Token validation failed: " ++ msg))

/-- The public-path set of AuthMiddleware, auth.py lines 218-221. -/
def public_paths : List String :=
  ["/health", "/health/", "/health/live", "/health/ready",
   "/metrics", "/", "/docs", "/redoc", "/openapi.json"]

/-- Public-path test of auth.py line 225: any startswith match. -/
def isPublicPath (path : String) : Bool :=
  public_paths.any (fun p => strStartsWith path p)

/-- Bearer-token extraction of auth.py lines 230-238: nothing when the
header is absent or empty, does not start with "Bearer ", or carries an
empty token after the prefix. -/
def extractBearerToken (auth_header : Option String) : Option String :=
  match auth_header with
  | none => none
  | some h =>
    if h == "" then none
    else if strStartsWith h "Bearer " then
      (if strDrop h 7 == "" then none else some (strDrop h 7))
    else none

/-- An inbound request as the middleware sees it: its path and the
value of the authorization header, when present. -/
structure Request where
  path : String
  authorization : Option String

/-- Terminal outcome of AuthMiddleware.dispatch for one request. -/
inductive DispatchResult where
  | publicBypass
  | handled (user : UserInfo)
  | rejected (e : AuthErr)
  deriving DecidableEq

/-- Result of dispatch together with the cache afterwards and the
number of tenant-directory resolutions performed. -/
structure DispatchOut where
  result : DispatchResult
  cache : UserCache
  dirCalls : Nat
  deriving DecidableEq

/-- AuthMiddleware.dispatch of auth.py lines 223-283. Public paths skip
the gate; otherwise the token is extracted (MissingTokenError when that
fails), verified, checked for expiry against the current time
(InvalidTokenError when exp is at or before now; a token without an exp
claim trips the generic middleware except clause), and the identity is
resolved and attached; auth errors propagate unchanged. -/
def dispatch (s : Settings) (fs : Firestore) (cache : UserCache) (now : Nat)
    (verify : String → VerifyOutcome) (req : Request) : DispatchOut :=
  if isPublicPath req.path then ⟨.publicBypass, cache, 0⟩
  else
    match extractBearerToken req.authorization with
    | none => ⟨.rejected .missingToken, cache, 0⟩
    | some token =>
      match validate_firebase_token (verify token) with
      | .error e => ⟨.rejected e, cache, 0⟩
      | .ok claims =>
        match claims.exp with
        | none => ⟨.rejected (.authenticationError "Authentication service unavailable"), cache, 0⟩
        | some exp =>
          if exp ≤ now then ⟨.rejected .invalidToken, cache, 0⟩
          else
            match get_user_info s fs cache now claims.uid claims.email with
            | ⟨.ok u, c, n⟩ => ⟨.handled u, c, n⟩
            | ⟨.error e, c, n⟩ => ⟨.rejected e, c, n⟩

/-- require_project_access of auth.py lines 312-319, applied to the
identity the gateway attached: return the user when the project check
passes, otherwise fail with ProjectAccessDeniedError. -/
def require_project_access (project_id : String) (u : UserInfo) :
    Except AuthErr UserInfo :=
  if u.can_access_project project_id then .ok u
  else .error (.projectAccessDenied project_id)

/-- clear_user_cache of auth.py lines 323-327. -/
def clear_user_cache (cache : UserCache) (uid : String) : UserCache :=
  cache.filter (fun p => !(p.1 == "user_" ++ uid))

/-! Concrete fixtures used by witnesses and counterexamples. -/

/-- Example configuration: default project, no admin projects
configured, the default super-admin domain, ttl 300 seconds. -/
def exSettings : Settings := ⟨"gama-454419", [], ["be-luma.com"], 300⟩

/-- Example firestore content, the end-to-end scenario of the spec:
user u1 linked to company t1, company t1 bound to project proj-42. -/
def exFirestore : Firestore :=
  ⟨fun uid => if uid == "u1" then .found ⟨some "t1", none, none⟩ else .absent,
   fun cid => if cid == "t1" then .found ⟨some "proj-42", none, none, none, none⟩ else .absent⟩

/-- The identity the example scenario resolves to. -/
def exTenantUser : UserInfo :=
  ⟨"u1", "a@tenant.co", false, "t1", "proj-42", "Unknown Company", false,
   ["proj-42"], ["read"], ⟨none, none, none⟩⟩

/-- A super-admin identity under the example configuration. -/
def exAdminUser : UserInfo := super_admin_user_info exSettings "u2" "ops@be-luma.com"

/-! Claim theorems. -/

/-- Claim C1: a request whose path is not public and whose authorization
header is absent, not of Bearer form, or carrying an empty token is
rejected with MissingToken before any handler runs (cache untouched, no
directory call); a request whose path matches the public allow-list
bypasses the gate entirely with no identity attached. -/
theorem gate_missing_token_and_public_bypass
    (s : Settings) (fs : Firestore) (cache : UserCache) (now : Nat)
    (verify : String → VerifyOutcome) (req : Request) :
    (isPublicPath req.path = false → extractBearerToken req.authorization = none →
      dispatch s fs cache now verify req = ⟨.rejected .missingToken, cache, 0⟩) ∧
    (isPublicPath req.path = true →
      dispatch s fs cache now verify req = ⟨.publicBypass, cache, 0⟩) := by
  constructor
  · intro hpub htok
    simp [dispatch, hpub, htok]
  · intro hpub
    simp [dispatch, hpub]

/-- Claim C1 witness: a non-public path with no authorization header is
rejected with MissingToken; the public path "/health" bypasses. -/
theorem gate_missing_token_and_public_bypass_witness :
    dispatch exSettings exFirestore [] 0 (fun _ => .invalidToken) ⟨"api/query", none⟩
      = ⟨.rejected .missingToken, [], 0⟩ ∧
    dispatch exSettings exFirestore [] 0 (fun _ => .invalidToken) ⟨"/health", none⟩
      = ⟨.publicBypass, [], 0⟩ :=
  ⟨(gate_missing_token_and_public_bypass _ _ _ _ _ _).1 (by decide) rfl,
   (gate_missing_token_and_public_bypass _ _ _ _ _ _).2 (by decide)⟩

/-- Claim C7: the scope guard denies every non-super-admin identity for
every project not in its accessible_projects, failing with
ProjectAccessDeniedError for that project, and permits every
super-admin identity for every project regardless of membership. -/
theorem scope_guard_denies_and_admin_bypasses (u : UserInfo) (p : String) :
    (u.is_super_admin = false → u.accessible_projects.contains p = false →
      require_project_access p u = .error (.projectAccessDenied p)) ∧
    (u.is_super_admin = true → require_project_access p u = .ok u) := by
  constructor
  · intro hsa hmem
    unfold require_project_access UserInfo.can_access_project
    rw [hsa, hmem]
    simp
  · intro hsa
    simp [require_project_access, UserInfo.can_access_project, hsa]

/-- Claim C7 witness: the example tenant identity is denied project
proj-99; the super-admin identity is permitted project proj-z. -/
theorem scope_guard_denies_and_admin_bypasses_witness :
    require_project_access "proj-99" exTenantUser
      = .error (.projectAccessDenied "proj-99") ∧
    require_project_access "proj-z" exAdminUser = .ok exAdminUser :=
  ⟨(scope_guard_denies_and_admin_bypasses exTenantUser "proj-99").1 rfl (by decide),
   (scope_guard_denies_and_admin_bypasses exAdminUser "proj-z").2 rfl⟩

/-- Claim C8: when the verifier reports the token valid but its exp
claim is at or before the current time, dispatch rejects the request
with InvalidToken. -/
theorem expired_token_always_rejected
    (s : Settings) (fs : Firestore) (cache : UserCache) (now : Nat)
    (verify : String → VerifyOutcome) (req : Request) (token uid email : String)
    (ev : Bool) (exp : Nat) (iat : Option Nat)
    (hpub : isPublicPath req.path = false)
    (htok : extractBearerToken req.authorization = some token)
    (hver : verify token = .valid uid email ev (some exp) iat)
    (hexp : exp ≤ now) :
    dispatch s fs cache now verify req = ⟨.rejected .invalidToken, cache, 0⟩ := by
  simp [dispatch, hpub, htok, hver, validate_firebase_token, hexp]

/-- Claim C8 witness: a token the verifier accepts with exp 5 is
rejected at time 10. -/
theorem expired_token_always_rejected_witness :
    dispatch exSettings exFirestore [] 10
      (fun _ => .valid "u1" "a@tenant.co" true (some 5) none)
      ⟨"api/query", some "Bearer tok"⟩ = ⟨.rejected .invalidToken, [], 0⟩ :=
  expired_token_always_rejected exSettings exFirestore [] 10 _ _ "tok" "u1"
    "a@tenant.co" true 5 none (by decide) (by decide) rfl (by decide)

/-! Helper lemmas shared between claims. -/

/-- An environment-parsed super-admin domain list never contains the
empty string (the validator filters empty entries). -/
theorem parse_super_admin_domains_no_empty (v : String) :
    (parse_super_admin_domains v).contains "" = false := by
  simp [parse_super_admin_domains, List.mem_filter]

/-- resolve_user_info performs at most one tenant-directory resolution. -/
theorem resolve_user_info_dirCalls_le_one (s : Settings) (fs : Firestore)
    (uid email : String) : (resolve_user_info s fs uid email).2 ≤ 1 := by
  unfold resolve_user_info
  repeat' split
  all_goals simp

/-- get_user_info on a cache miss when resolution succeeds: the value
is returned and written to the cache. -/
theorem get_user_info_miss_ok (s : Settings) (fs : Firestore)
    (cache : UserCache) (now : Nat) (uid email : String) (u : UserInfo) (n : Nat)
    (hmiss : cacheLookup cache ("user_" ++ uid) now = none)
    (hres : resolve_user_info s fs uid email = (.ok u, n)) :
    get_user_info s fs cache now uid email
      = ⟨.ok u, cacheInsert cache ("user_" ++ uid) u now, n⟩ := by
  unfold get_user_info
  rw [hmiss, hres]

/-- get_user_info on a cache miss when resolution fails: the error is
returned and nothing is cached. -/
theorem get_user_info_miss_error (s : Settings) (fs : Firestore)
    (cache : UserCache) (now : Nat) (uid email : String) (e : AuthErr) (n : Nat)
    (hmiss : cacheLookup cache ("user_" ++ uid) now = none)
    (hres : resolve_user_info s fs uid email = (.error e, n)) :
    get_user_info s fs cache now uid email = ⟨.error e, cache, n⟩ := by
  unfold get_user_info
  rw [hmiss, hres]

/-- get_user_info on a cache hit: the cached value is returned, the
cache is unchanged, and the resolver is not consulted. -/
theorem get_user_info_hit (s : Settings) (fs : Firestore)
    (cache : UserCache) (now : Nat) (uid email : String) (u : UserInfo)
    (hhit : cacheLookup cache ("user_" ++ uid) now = some u) :
    get_user_info s fs cache now uid email = ⟨.ok u, cache, 0⟩ := by
  unfold get_user_info
  rw [hhit]

/-- Reading the key just written: the stored value while fewer than
user_cache_ttl seconds have passed since the write, nothing after. -/
theorem cacheLookup_cacheInsert (c : UserCache) (k : String) (v : UserInfo)
    (t now : Nat) :
    cacheLookup (cacheInsert c k v t) k now
      = if now < t + user_cache_ttl then some v else none := by
  simp [cacheLookup, cacheInsert]

/-- Claim C3: on a cache miss, an email containing an at-sign whose
substring after the last at-sign is in the configured super-admin
domain list resolves with zero tenant-directory calls to the
super-admin identity: sentinel company "super-admin", email_verified
forced true, full permissions, and the configured admin projects
falling back to the default project; and when the configured list does
not contain the empty string (which the environment parser guarantees,
see parse_super_admin_domains_no_empty), an email with no at-sign never
passes the super-admin check. -/
theorem super_admin_resolution (s : Settings) (fs : Firestore)
    (cache : UserCache) (now : Nat) (uid email : String)
    (hmiss : cacheLookup cache ("user_" ++ uid) now = none) :
    (strContainsChar email '@' = true →
     s.super_admin_domains.contains (afterLastSep email '@') = true →
     get_user_info s fs cache now uid email
       = ⟨.ok (super_admin_user_info s uid email),
          cacheInsert cache ("user_" ++ uid) (super_admin_user_info s uid email) now, 0⟩ ∧
     (super_admin_user_info s uid email).is_super_admin = true ∧
     (super_admin_user_info s uid email).company_id = "super-admin" ∧
     (super_admin_user_info s uid email).email_verified = true ∧
     (super_admin_user_info s uid email).permissions = ["read", "write", "admin"] ∧
     (super_admin_user_info s uid email).accessible_projects
       = pyListOr s.accessible_projects [s.gcp_project_id]) ∧
    (strContainsChar email '@' = false →
     s.super_admin_domains.contains "" = false →
     super_admin_check s email = false) := by
  constructor
  · intro hAt hdom
    have hne : (email == "") = false := by
      cases hb : email == ""
      · rfl
      · exfalso
        have he : email = "" := eq_of_beq hb
        rw [he] at hAt
        simp [strContainsChar] at hAt
    have hchk : super_admin_check s email = true := by
      simp at hdom
      simp [super_admin_check, hne, hAt, hdom]
    refine ⟨?_, rfl, rfl, rfl, rfl, rfl⟩
    apply get_user_info_miss_ok s fs cache now uid email _ 0 hmiss
    unfold resolve_user_info
    rw [hchk]
    simp
  · intro hAt hempty
    cases hb : email == ""
    · simp at hempty
      simp [super_admin_check, hb, hAt, hempty]
    · simp [super_admin_check, hb]

/-- Claim C3 witness: under the example configuration the admin-domain
email resolves directly to the super-admin identity with no directory
call, and an email with no at-sign fails the super-admin check. -/
theorem super_admin_resolution_witness :
    get_user_info exSettings exFirestore [] 0 "u2" "ops@be-luma.com"
      = ⟨.ok exAdminUser, cacheInsert [] ("user_" ++ "u2") exAdminUser 0, 0⟩ ∧
    super_admin_check exSettings "nodomain" = false :=
  ⟨((super_admin_resolution exSettings exFirestore [] 0 "u2" "ops@be-luma.com"
      rfl).1 (by decide) (by decide)).1,
   (super_admin_resolution exSettings exFirestore [] 0 "u" "nodomain"
      rfl).2 (by decide) (by decide)⟩

/-- Claim C4: on a cache miss for a non-super-admin email, directory
resolution fails in exactly the ladder order: UserNotFound when the
user document is absent; an authorization-class error (HTTP 403) when
the user has no company link; CompanyNotFound when the client document
is absent; an authorization-class error when the client binds no
gcpProjectId — and in every case the outcome is an error with nothing
cached, never a fallback identity. -/
theorem directory_error_ladder (s : Settings) (fs : Firestore)
    (cache : UserCache) (now : Nat) (uid email : String)
    (hmiss : cacheLookup cache ("user_" ++ uid) now = none)
    (hsa : super_admin_check s email = false) :
    (fs.users uid = .absent →
      get_user_info s fs cache now uid email = ⟨.error .userNotFound, cache, 1⟩) ∧
    (∀ ud, fs.users uid = .found ud → pyTruthy ud.company_id = false →
      get_user_info s fs cache now uid email
        = ⟨.error (.authorizationError "User not associated with any company"), cache, 1⟩) ∧
    (∀ ud c, fs.users uid = .found ud → ud.company_id = some c → (c == "") = false →
      fs.clients c = .absent →
      get_user_info s fs cache now uid email = ⟨.error .companyNotFound, cache, 1⟩) ∧
    (∀ ud c cd, fs.users uid = .found ud → ud.company_id = some c → (c == "") = false →
      fs.clients c = .found cd → pyTruthy cd.gcpProjectId = false →
      get_user_info s fs cache now uid email
        = ⟨.error (.authorizationError "Company does not have an associated GCP project"),
           cache, 1⟩) ∧
    (∀ d, (AuthErr.authorizationError d).status_code = 403) := by
  refine ⟨?_, ?_, ?_, ?_, fun d => rfl⟩
  · intro hu
    apply get_user_info_miss_error s fs cache now uid email _ 1 hmiss
    unfold resolve_user_info
    rw [hsa, hu]
    simp
  · intro ud hu htr
    apply get_user_info_miss_error s fs cache now uid email _ 1 hmiss
    unfold resolve_user_info
    rw [hsa, hu]
    simp [htr]
  · intro ud c hu hc hcne habs
    apply get_user_info_miss_error s fs cache now uid email _ 1 hmiss
    unfold resolve_user_info
    rw [hsa, hu]
    have h1 : pyTruthy ud.company_id = true := by simp [pyTruthy, hc, hcne]
    have h2 : ud.company_id.getD "" = c := by simp [hc]
    simp only [h1, h2, habs]
    simp
  · intro ud c cd hu hc hcne hcl hgr
    apply get_user_info_miss_error s fs cache now uid email _ 1 hmiss
    unfold resolve_user_info
    rw [hsa, hu]
    have h1 : pyTruthy ud.company_id = true := by simp [pyTruthy, hc, hcne]
    have h2 : ud.company_id.getD "" = c := by simp [hc]
    simp only [h1, h2, hcl, hgr]
    simp

/-- Firestore fixture exercising each rung of the error ladder. -/
def exFirestoreLadder : Firestore :=
  ⟨fun uid =>
      if uid == "u-nolink" then .found ⟨none, none, none⟩
      else if uid == "u-badco" then .found ⟨some "c-absent", none, none⟩
      else if uid == "u-noproj" then .found ⟨some "c-noproj", none, none⟩
      else .absent,
   fun cid => if cid == "c-noproj" then .found ⟨none, none, none, none, none⟩ else .absent⟩

/-- Claim C4 witness: the four ladder failures at concrete inputs. -/
theorem directory_error_ladder_witness :
    get_user_info exSettings exFirestoreLadder [] 0 "u-absent" "x@tenant.co"
      = ⟨.error .userNotFound, [], 1⟩ ∧
    get_user_info exSettings exFirestoreLadder [] 0 "u-nolink" "x@tenant.co"
      = ⟨.error (.authorizationError "User not associated with any company"), [], 1⟩ ∧
    get_user_info exSettings exFirestoreLadder [] 0 "u-badco" "x@tenant.co"
      = ⟨.error .companyNotFound, [], 1⟩ ∧
    get_user_info exSettings exFirestoreLadder [] 0 "u-noproj" "x@tenant.co"
      = ⟨.error (.authorizationError "Company does not have an associated GCP project"), [], 1⟩ :=
  ⟨(directory_error_ladder exSettings exFirestoreLadder [] 0 "u-absent" "x@tenant.co"
      rfl (by decide)).1 rfl,
   (directory_error_ladder exSettings exFirestoreLadder [] 0 "u-nolink" "x@tenant.co"
      rfl (by decide)).2.1 ⟨none, none, none⟩ rfl rfl,
   (directory_error_ladder exSettings exFirestoreLadder [] 0 "u-badco" "x@tenant.co"
      rfl (by decide)).2.2.1 ⟨some "c-absent", none, none⟩ "c-absent" rfl rfl (by decide) rfl,
   (directory_error_ladder exSettings exFirestoreLadder [] 0 "u-noproj" "x@tenant.co"
      rfl (by decide)).2.2.2.1 ⟨some "c-noproj", none, none⟩ "c-noproj"
      ⟨none, none, none, none, none⟩ rfl rfl (by decide) rfl rfl⟩

/-- Claim C5: on a cache miss for a non-super-admin email whose user
document exists with a nonempty company link and whose client document
binds a nonempty gcpProjectId, resolution succeeds with
accessible_projects exactly the singleton of the bound project,
is_super_admin false, company_id from the user document, and
permissions from the user document defaulting to read. -/
theorem tenant_resolution_success (s : Settings) (fs : Firestore)
    (cache : UserCache) (now : Nat) (uid email c g : String)
    (ud : UserDoc) (cd : ClientDoc)
    (hmiss : cacheLookup cache ("user_" ++ uid) now = none)
    (hsa : super_admin_check s email = false)
    (hu : fs.users uid = .found ud)
    (hc : ud.company_id = some c) (hcne : (c == "") = false)
    (ht : fs.clients c = .found cd)
    (hg : cd.gcpProjectId = some g) (hgne : (g == "") = false) :
    get_user_info s fs cache now uid email
      = ⟨.ok (tenant_user_info uid email c g ud cd),
         cacheInsert cache ("user_" ++ uid) (tenant_user_info uid email c g ud cd) now, 1⟩ ∧
    (tenant_user_info uid email c g ud cd).accessible_projects = [g] ∧
    (tenant_user_info uid email c g ud cd).company_id = c ∧
    (tenant_user_info uid email c g ud cd).is_super_admin = false ∧
    (ud.permissions = none → (tenant_user_info uid email c g ud cd).permissions = ["read"]) := by
  refine ⟨?_, rfl, rfl, rfl, ?_⟩
  · apply get_user_info_miss_ok s fs cache now uid email _ 1 hmiss
    unfold resolve_user_info
    rw [hsa, hu]
    have h1 : pyTruthy ud.company_id = true := by simp [pyTruthy, hc, hcne]
    have h2 : ud.company_id.getD "" = c := by simp [hc]
    have h3 : pyTruthy cd.gcpProjectId = true := by simp [pyTruthy, hg, hgne]
    have h4 : cd.gcpProjectId.getD "" = g := by simp [hg]
    simp only [h1, h2, ht, h3, h4]
    simp
  · intro hp
    simp [tenant_user_info, hp, pyListOr]

/-- Claim C5 witness: the end-to-end example of the spec — user u1
linked to company t1 bound to proj-42 resolves to company_id t1,
accessible projects exactly proj-42, not super admin, permissions
defaulting to read. -/
theorem tenant_resolution_success_witness :
    get_user_info exSettings exFirestore [] 0 "u1" "a@tenant.co"
      = ⟨.ok exTenantUser, cacheInsert [] ("user_" ++ "u1") exTenantUser 0, 1⟩ ∧
    exTenantUser.company_id = "t1" ∧
    exTenantUser.accessible_projects = ["proj-42"] ∧
    exTenantUser.is_super_admin = false ∧
    exTenantUser.permissions = ["read"] := by
  have h := tenant_resolution_success exSettings exFirestore [] 0 "u1" "a@tenant.co"
      "t1" "proj-42" ⟨some "t1", none, none⟩ ⟨some "proj-42", none, none, none, none⟩
      rfl (by decide) rfl rfl (by decide) rfl rfl (by decide)
  exact ⟨h.1, rfl, rfl, rfl, rfl⟩

/-- Claim C6: starting from a cache miss, a successful resolution
followed by a second resolution of the same subject within the ttl
window returns the identical identity from the cache with no
tenant-directory call, and the two resolutions together invoke the
directory at most once. -/
theorem cache_idempotence_within_ttl (s : Settings) (fs : Firestore)
    (c0 : UserCache) (t0 t1 : Nat) (uid email : String) (u : UserInfo)
    (hmiss : cacheLookup c0 ("user_" ++ uid) t0 = none)
    (hok : (get_user_info s fs c0 t0 uid email).result = .ok u)
    (httl : t1 < t0 + user_cache_ttl) :
    get_user_info s fs (get_user_info s fs c0 t0 uid email).cache t1 uid email
      = ⟨.ok u, (get_user_info s fs c0 t0 uid email).cache, 0⟩ ∧
    (get_user_info s fs c0 t0 uid email).dirCalls
      + (get_user_info s fs (get_user_info s fs c0 t0 uid email).cache t1 uid email).dirCalls
      ≤ 1 := by
  rcases hres : resolve_user_info s fs uid email with ⟨res, n⟩
  cases res with
  | error e =>
      rw [get_user_info_miss_error s fs c0 t0 uid email e n hmiss hres] at hok
      simp at hok
  | ok w =>
      have h0 := get_user_info_miss_ok s fs c0 t0 uid email w n hmiss hres
      rw [h0] at hok
      simp at hok
      subst hok
      have hhit : cacheLookup (cacheInsert c0 ("user_" ++ uid) w t0) ("user_" ++ uid) t1
          = some w := by
        rw [cacheLookup_cacheInsert]
        simp [httl]
      have h1 := get_user_info_hit s fs (cacheInsert c0 ("user_" ++ uid) w t0) t1 uid email
          w hhit
      rw [h0]
      refine ⟨h1, ?_⟩
      rw [h1]
      have hn := resolve_user_info_dirCalls_le_one s fs uid email
      rw [hres] at hn
      simpa using hn

/-- Claim C6 witness: resolving u1 at time 0 and again at time 100
returns the identical identity from the cache with no second directory
call, one directory call in total. -/
theorem cache_idempotence_within_ttl_witness :
    get_user_info exSettings exFirestore
        (get_user_info exSettings exFirestore [] 0 "u1" "a@tenant.co").cache
        100 "u1" "a@tenant.co"
      = ⟨.ok exTenantUser,
         (get_user_info exSettings exFirestore [] 0 "u1" "a@tenant.co").cache, 0⟩ ∧
    (get_user_info exSettings exFirestore [] 0 "u1" "a@tenant.co").dirCalls
      + (get_user_info exSettings exFirestore
          (get_user_info exSettings exFirestore [] 0 "u1" "a@tenant.co").cache
          100 "u1" "a@tenant.co").dirCalls ≤ 1 :=
  cache_idempotence_within_ttl exSettings exFirestore [] 0 100 "u1" "a@tenant.co"
    exTenantUser rfl (by decide) (by decide)

/-- Claim C10: resolution is keyed by uid alone — once a successful
resolution under email e1 is cached, a resolution of the same uid under
any email e2 within the ttl window returns the identity constructed
from e1, with no directory call and the cache unchanged; the email
argument has no influence on a cache hit. -/
theorem cache_hit_ignores_email (s : Settings) (fs : Firestore)
    (c0 : UserCache) (t0 t1 : Nat) (uid e1 e2 : String) (u : UserInfo)
    (hmiss : cacheLookup c0 ("user_" ++ uid) t0 = none)
    (hok : (get_user_info s fs c0 t0 uid e1).result = .ok u)
    (httl : t1 < t0 + user_cache_ttl) :
    get_user_info s fs (get_user_info s fs c0 t0 uid e1).cache t1 uid e2
      = ⟨.ok u, (get_user_info s fs c0 t0 uid e1).cache, 0⟩ := by
  rcases hres : resolve_user_info s fs uid e1 with ⟨res, n⟩
  cases res with
  | error e =>
      rw [get_user_info_miss_error s fs c0 t0 uid e1 e n hmiss hres] at hok
      simp at hok
  | ok w =>
      have h0 := get_user_info_miss_ok s fs c0 t0 uid e1 w n hmiss hres
      rw [h0] at hok
      simp at hok
      subst hok
      have hhit : cacheLookup (cacheInsert c0 ("user_" ++ uid) w t0) ("user_" ++ uid) t1
          = some w := by
        rw [cacheLookup_cacheInsert]
        simp [httl]
      have h1 := get_user_info_hit s fs (cacheInsert c0 ("user_" ++ uid) w t0) t1 uid e2
          w hhit
      rw [h0]
      exact h1

/-- Claim C10 witness: after u1 is resolved under the tenant email,
a lookup of the same uid under a super-admin-domain email still
returns the cached tenant identity with no directory call. -/
theorem cache_hit_ignores_email_witness :
    get_user_info exSettings exFirestore
        (get_user_info exSettings exFirestore [] 0 "u1" "a@tenant.co").cache
        100 "u1" "ops@be-luma.com"
      = ⟨.ok exTenantUser,
         (get_user_info exSettings exFirestore [] 0 "u1" "a@tenant.co").cache, 0⟩ :=
  cache_hit_ignores_email exSettings exFirestore [] 0 100 "u1" "a@tenant.co"
    "ops@be-luma.com" exTenantUser rfl (by decide) (by decide)

/-- Firestore whose user lookup fails with an infrastructure error. -/
def exFirestoreDown : Firestore :=
  ⟨fun _ => .infraError "deadline exceeded", fun _ => .absent⟩

/-- Claim C2 counterexample: an unexpected infrastructure failure of
the user lookup surfaces as a plain AuthenticationError with HTTP
status 401, not as any 503-class error — and UserNotFound is also 401,
so the two are not separated by HTTP class, only by error code. -/
theorem infra_failure_is_401_not_503 :
    (get_user_info exSettings exFirestoreDown [] 0 "u1" "a@tenant.co").result
      = .error (.authenticationError
          "Failed to get user information: deadline exceeded") ∧
    (AuthErr.authenticationError
        "Failed to get user information: deadline exceeded").status_code = 401 ∧
    ¬ (AuthErr.authenticationError
        "Failed to get user information: deadline exceeded").status_code = 503 ∧
    AuthErr.userNotFound.status_code = 401 :=
  ⟨by decide, rfl, by decide, rfl⟩

/-- Claim C2 amended: every unexpected infrastructure failure during
token validation or tenant-directory lookup surfaces as a plain
AuthenticationError carrying a failure detail, of HTTP status 401 and
error code AUTH_ERROR — never as the UserNotFound, CompanyNotFound or
InvalidToken conditions, from which it is distinguished by error code
rather than by HTTP class. -/
theorem infra_failure_surfaces_as_auth_error (s : Settings) (fs : Firestore)
    (cache : UserCache) (now : Nat) (uid email msg : String)
    (hmiss : cacheLookup cache ("user_" ++ uid) now = none)
    (hsa : super_admin_check s email = false) :
    (fs.users uid = .infraError msg →
      get_user_info s fs cache now uid email
        = ⟨.error (.authenticationError ("Failed to get user information: " ++ msg)),
           cache, 1⟩) ∧
    (∀ ud c, fs.users uid = .found ud → ud.company_id = some c → (c == "") = false →
      fs.clients c = .infraError msg →
      get_user_info s fs cache now uid email
        = ⟨.error (.authenticationError ("Failed to get user information: " ++ msg)),
           cache, 1⟩) ∧
    (validate_firebase_token (.infraError msg)
      = .error (.authenticationError ("Token validation failed: " ++ msg))) ∧
    (∀ d, (AuthErr.authenticationError d).status_code = 401 ∧
      (AuthErr.authenticationError d).error_code = "AUTH_ERROR" ∧
      AuthErr.authenticationError d ≠ .userNotFound ∧
      AuthErr.authenticationError d ≠ .companyNotFound ∧
      AuthErr.authenticationError d ≠ .invalidToken ∧
      (AuthErr.authenticationError d).error_code ≠ AuthErr.userNotFound.error_code) := by
  refine ⟨?_, ?_, rfl, ?_⟩
  · intro hu
    apply get_user_info_miss_error s fs cache now uid email _ 1 hmiss
    unfold resolve_user_info
    rw [hsa, hu]
    simp
  · intro ud c hu hc hcne hcl
    apply get_user_info_miss_error s fs cache now uid email _ 1 hmiss
    unfold resolve_user_info
    rw [hsa, hu]
    have h1 : pyTruthy ud.company_id = true := by simp [pyTruthy, hc, hcne]
    have h2 : ud.company_id.getD "" = c := by simp [hc]
    simp only [h1, h2, hcl]
    simp
  · intro d
    refine ⟨rfl, rfl, by simp, by simp, by simp, by simp [AuthErr.error_code]⟩

/-- Claim C2 amended witness: the infrastructure failure of the user
lookup at concrete inputs yields the plain AuthenticationError. -/
theorem infra_failure_surfaces_as_auth_error_witness :
    get_user_info exSettings exFirestoreDown [] 0 "u1" "a@tenant.co"
      = ⟨.error (.authenticationError
          "Failed to get user information: deadline exceeded"), [], 1⟩ ∧
    validate_firebase_token (.infraError "connection reset")
      = .error (.authenticationError "Token validation failed: connection reset") :=
  ⟨(infra_failure_surfaces_as_auth_error exSettings exFirestoreDown [] 0 "u1"
      "a@tenant.co" "deadline exceeded" rfl (by decide)).1 rfl,
   (infra_failure_surfaces_as_auth_error exSettings exFirestoreDown [] 0 "u1"
      "a@tenant.co" "connection reset" rfl (by decide)).2.2.1⟩

/-- Settings configured with a 60 second cache ttl. -/
def exSettings60 : Settings := ⟨"gama-454419", [], ["be-luma.com"], 60⟩

/-- Claim C9 counterexample: with cache_ttl configured to 60 seconds,
an identity resolved at time 0 is still served from the cache at time
200 — past the configured ttl — with no directory call, because the
cache used for identity resolution hardcodes ttl 300 and ignores the
configured value. -/
theorem cache_ttl_ignores_configuration :
    exSettings60.cache_ttl = 60 ∧
    user_cache_ttl ≠ exSettings60.cache_ttl ∧
    exSettings60.cache_ttl < 200 ∧
    (get_user_info exSettings60 exFirestore
        (get_user_info exSettings60 exFirestore [] 0 "u1" "a@tenant.co").cache
        200 "u1" "a@tenant.co").dirCalls = 0 ∧
    (get_user_info exSettings60 exFirestore
        (get_user_info exSettings60 exFirestore [] 0 "u1" "a@tenant.co").cache
        200 "u1" "a@tenant.co").result = .ok exTenantUser :=
  ⟨rfl, by decide, by decide, by decide, by decide⟩

/-- Claim C9 amended: the identity cache parameters are hardcoded in
auth.py line 55 — ttl 300 seconds and maxsize 1000 — independent of the
configured cache_ttl: resolution behaviour is unchanged under any value
of cache_ttl, and a freshly written entry is served until exactly 300
seconds have passed and not after. -/
theorem cache_parameters_hardcoded (s : Settings) (x : Nat) (fs : Firestore)
    (cache : UserCache) (now : Nat) (uid email k : String) (v : UserInfo)
    (c : UserCache) (t tq : Nat) :
    user_cache_ttl = 300 ∧
    user_cache_maxsize = 1000 ∧
    get_user_info ⟨s.gcp_project_id, s.accessible_projects, s.super_admin_domains, x⟩
        fs cache now uid email
      = get_user_info s fs cache now uid email ∧
    cacheLookup (cacheInsert c k v t) k tq
      = (if tq < t + 300 then some v else none) := by
  refine ⟨rfl, rfl, rfl, ?_⟩
  rw [cacheLookup_cacheInsert]
  rfl
